import Mathlib

/-!
Verification of the eRPC message-buffer and Nexus registration substrate.

The development shallowly embeds `src/msg_buffer.h` and `src/nexus.h`.
Pointers are modelled as natural-number addresses with `0` playing the role
of `nullptr`; the memory a `MsgBuffer` dereferences is an explicit heap
mapping a header start address to the packet-header record stored there.
Entities that live in headers that are not part of the two embedded files
(`pkthdr.h`, `common.h`, `util/buffer.h`, and the out-of-line bodies of the
`Nexus` registration functions) are modelled from the specification and say
so in their doc comments.
-/

namespace ERpc

/-- Modelled from the spec: `pkthdr_t` (defined in `pkthdr.h`, which is not
under `src/`) is a fixed-width record with at minimum a magic constant,
message type, payload length, sequence number within the message, session
number and request number.  `msg_buffer.h` only ever reads the `magic`
field. -/
structure pkthdr_t where
  magic : Nat
  msg_type : Nat
  msg_size : Nat
  pkt_num : Nat
  rem_session_num : Nat
  req_num : Nat
deriving DecidableEq, Repr

/-- Modelled from the spec: the compile-time packet-header magic constant
`kPktHdrMagic` from `pkthdr.h` (not under `src/`).  Its concrete value is
irrelevant to every claim; any fixed value works. -/
def kPktHdrMagic : Nat := 11

/-- Modelled from the spec: `sizeof(pkthdr_t)`.  `pkthdr.h` is not under
`src/`; the spec only says the header is fixed-width, so its size is
modelled as a fixed positive constant (16 bytes, one word-aligned header). -/
def sizeof_pkthdr : Nat := 16

/-- Modelled from the spec: `round_up<alignment>(x)` from `common.h` (not
under `src/`), rounding `x` up to the next multiple of `alignment`; the spec
describes the trailing headers as "aligned to the platform word size". -/
def round_up (alignment x : Nat) : Nat :=
  ((x + alignment - 1) / alignment) * alignment

/-- The platform word size `sizeof(size_t)` used as the alignment of the
trailing packet headers; 8 on the 64-bit platforms the spec assumes. -/
def sizeof_size_t : Nat := 8

/-- Modelled from the spec: the Backing Buffer from `util/buffer.h` (not
under `src/`): an owning handle carrying a base pointer and a class size.
Address `0` plays the role of `nullptr`. -/
structure Buffer where
  buf : Nat
  class_size : Nat
deriving DecidableEq, Repr

/-- Modelled from the spec: the distinguished invalid Buffer value returned
by `Buffer::get_invalid_buffer()`: a null base pointer. -/
def Buffer.get_invalid_buffer : Buffer :=
  { buf := 0, class_size := 0 }

/-- The memory the `MsgBuffer` pointers dereference: a map from the start
address of a packet-header slot to the `pkthdr_t` record stored there. -/
def Heap : Type := Nat → pkthdr_t

/-- The `MsgBuffer` record of `msg_buffer.h` (lines 117-136): pointer to the
first data byte, optional backing `Buffer`, size bookkeeping, and the
progress counter (the `pkts_queued` / `pkts_rcvd` union, modelled as the
single integer the spec prescribes). -/
structure MsgBuffer where
  buf : Nat
  buffer : Buffer
  max_data_size : Nat
  data_size : Nat
  max_num_pkts : Nat
  num_pkts : Nat
  pkts_queued : Nat
deriving DecidableEq, Repr

/-- `MsgBuffer::get_pkthdr_0` (msg_buffer.h lines 33-35): the address of the
pre-appended packet header, `buf - sizeof(pkthdr_t)`.  (Constructed buffers
have `buf ≥ sizeof(pkthdr_t)`, so the truncated subtraction is exact.) -/
def MsgBuffer.get_pkthdr_0 (m : MsgBuffer) : Nat :=
  m.buf - sizeof_pkthdr

/-- `MsgBuffer::get_pkthdr_n` (msg_buffer.h lines 39-43): the address of the
nth (n ≥ 1) packet header,
`buf + round_up<sizeof(size_t)>(max_data_size) + (n-1)*sizeof(pkthdr_t)`.
The `assert(n >= 1)` becomes a hypothesis of the theorems about it. -/
def MsgBuffer.get_pkthdr_n (m : MsgBuffer) (n : Nat) : Nat :=
  m.buf + round_up sizeof_size_t m.max_data_size + (n - 1) * sizeof_pkthdr

/-- `MsgBuffer::is_valid` (msg_buffer.h lines 46-56), reading the magic
field through `get_pkthdr_0` in the given heap. -/
def MsgBuffer.is_valid (m : MsgBuffer) (heap : Heap) : Bool :=
  if m.buf = 0 then false
  else if (heap m.get_pkthdr_0).magic ≠ kPktHdrMagic then false
  else true

/-- `MsgBuffer::get_data_size` (msg_buffer.h line 59). -/
def MsgBuffer.get_data_size (m : MsgBuffer) : Nat :=
  m.data_size

/-- The owning constructor `MsgBuffer(Buffer, size_t, size_t)`
(msg_buffer.h lines 80-93).  Its initializer list sets every field; its body
contains only assertions (modelled by `ctor_owned_asserts`) and, notably, no
store to memory: the packet-header region of the backing buffer is left
exactly as the allocator handed it over. -/
def MsgBuffer.ctor_owned (buffer : Buffer) (max_data_size max_num_pkts : Nat) :
    MsgBuffer :=
  { buf := buffer.buf + sizeof_pkthdr
    buffer := buffer
    max_data_size := max_data_size
    data_size := max_data_size
    max_num_pkts := max_num_pkts
    num_pkts := max_num_pkts
    pkts_queued := 0 }

/-- The three assertions in the body of the owning constructor
(msg_buffer.h lines 88-92): the backing buffer is non-null, at least one
packet fits, and the class size covers payload plus headers. -/
def MsgBuffer.ctor_owned_asserts (buffer : Buffer)
    (max_data_size max_num_pkts : Nat) : Bool :=
  decide (buffer.buf ≠ 0) && decide (1 ≤ max_num_pkts) &&
    decide (max_data_size + max_num_pkts * sizeof_pkthdr ≤ buffer.class_size)

/-- The RX-borrow constructor `MsgBuffer(uint8_t*, size_t)`
(msg_buffer.h lines 97-107): wraps one received packet, with the invalid
Buffer sentinel as backing buffer and a single packet. -/
def MsgBuffer.ctor_rx (pkt : Nat) (max_data_size : Nat) : MsgBuffer :=
  { buf := pkt + sizeof_pkthdr
    buffer := Buffer.get_invalid_buffer
    max_data_size := max_data_size
    data_size := max_data_size
    max_num_pkts := 1
    num_pkts := 1
    pkts_queued := 0 }

/-- `MsgBuffer::resize` (msg_buffer.h lines 110-115): overwrites `data_size`
and `num_pkts` and nothing else; its asserts (`new_data_size ≤
max_data_size`, `new_num_pkts ≤ max_num_pkts`) become hypotheses of the
theorems about it. -/
def MsgBuffer.resize (m : MsgBuffer) (new_data_size new_num_pkts : Nat) :
    MsgBuffer :=
  { m with data_size := new_data_size, num_pkts := new_num_pkts }

/-- Modelled from the spec: a `ReqFunc` request-handler record
(`sm_types.h` is not under `src/`).  Only the validity of the wrapped
handler matters to the claims, so the handler is an abstract function
pointer with `0` standing for the empty/null (invalid) handler the spec's
invalid-handler rejection case talks about. -/
structure ReqFunc where
  req_func : Nat
deriving DecidableEq, Repr

/-- The session-management `Hook` of `nexus.h` (lines 55-69), reduced to the
one field the registration claims read: the ID of the Rpc that created it.
The queue references the Nexus installs into it carry no information the
claims mention. -/
structure Hook where
  rpc_id : Nat
deriving DecidableEq, Repr

/-- An ENet peer as `nexus.h` sees it: only its per-peer opaque `data`
pointer (`0` standing for `nullptr`) is ever read, by
`sm_is_peer_mode_server` (line 184). -/
structure ENetPeer where
  data : Nat
deriving DecidableEq, Repr

/-- `Nexus::sm_is_peer_mode_server` (nexus.h line 184):
`return e->data == nullptr;`. -/
def Nexus.sm_is_peer_mode_server (e : ENetPeer) : Bool :=
  e.data == 0

/-- The registration-relevant mutable state of a `Nexus` (nexus.h lines
193-203): the ground-truth request-function table (a slot per 8-bit request
type, `none` when unoccupied), the `req_func_registration_allowed` flag, and
the `reg_hooks_arr` hook registry (a slot per Rpc ID). -/
structure NexusState where
  req_func_arr : Nat → Option ReqFunc
  req_func_registration_allowed : Bool
  reg_hooks_arr : Nat → Option Hook

/-- The state of a freshly constructed Nexus: `nexus.h` line 200 initializes
`req_func_registration_allowed = true`, line 203 initializes every hook slot
to `nullptr`, and the request-function table starts with every slot
unoccupied (default-constructed handlers). -/
def Nexus.init : NexusState :=
  { req_func_arr := fun _ => none
    req_func_registration_allowed := true
    reg_hooks_arr := fun _ => none }

/-- Modelled from the spec: `Nexus::register_req_func` (declared at nexus.h
line 106; its body is not under `src/`).  Following spec section 4.4 it is
rejected with a registration-closed error when the window is closed,
rejected when slot `req_type` is already occupied, rejected when the handler
is invalid (empty/null), and otherwise installs the handler and returns 0.
The three negative errno values are modelled as -1, -2, -3. -/
def Nexus.register_req_func (s : NexusState) (req_type : Nat)
    (req_func : ReqFunc) : Int × NexusState :=
  if s.req_func_registration_allowed = false then (-1, s)
  else if (s.req_func_arr req_type).isSome then (-2, s)
  else if req_func.req_func = 0 then (-3, s)
  else
    (0, { s with req_func_arr := fun t =>
            if t = req_type then some req_func else s.req_func_arr t })

/-- Modelled from the spec: `Nexus::register_hook` (declared at nexus.h line
95; its body is not under `src/`).  Following spec section 4.5 it asserts
(here: returns `none`) when `reg_hooks_arr[hook.rpc_id]` is non-null, and
otherwise flips the registration-allowed flag to `false` and stores the hook
in the registry.  The queue references it installs into the hook are not
modelled (no claim reads them). -/
def Nexus.register_hook (s : NexusState) (hook : Hook) : Option NexusState :=
  if (s.reg_hooks_arr hook.rpc_id).isSome then none
  else
    some { s with
      req_func_registration_allowed := false
      reg_hooks_arr := fun i =>
        if i = hook.rpc_id then some hook else s.reg_hooks_arr i }

/-- Modelled from the spec: `Nexus::unregister_hook` (declared at nexus.h
line 98; its body is not under `src/`): clears the hook's registry slot. -/
def Nexus.unregister_hook (s : NexusState) (hook : Hook) : NexusState :=
  { s with reg_hooks_arr := fun i =>
      if i = hook.rpc_id then none else s.reg_hooks_arr i }

/-- `Nexus::rpc_id_exists` (declared at nexus.h line 92): whether the hook
registry slot for `rpc_id` is occupied. -/
def Nexus.rpc_id_exists (s : NexusState) (rpc_id : Nat) : Bool :=
  (s.reg_hooks_arr rpc_id).isSome

/-- The operations through which the registration state of a Nexus can
evolve after construction. -/
inductive NexusOp where
  | reg_req_func (req_type : Nat) (req_func : ReqFunc)
  | reg_hook (hook : Hook)
  | unreg_hook (hook : Hook)

/-- The state transition performed by one Nexus registration operation (a
failed `register_hook`, i.e. a fired assert, leaves the state unchanged). -/
def Nexus.step (s : NexusState) (op : NexusOp) : NexusState :=
  match op with
  | NexusOp.reg_req_func t f => (Nexus.register_req_func s t f).2
  | NexusOp.reg_hook h =>
    match Nexus.register_hook s h with
    | some s2 => s2
    | none => s
  | NexusOp.unreg_hook h => Nexus.unregister_hook s h

/-- A heap holding the packet-header magic constant in every header slot,
standing for backing memory whose headers were already stamped. -/
def heap_magic : Heap := fun _ =>
  { magic := kPktHdrMagic, msg_type := 0, msg_size := 0, pkt_num := 0,
    rem_session_num := 0, req_num := 0 }

/-- A heap of zeroed memory: every header slot holds magic 0, as a freshly
zeroed allocation would. -/
def heap_zero : Heap := fun _ =>
  { magic := 0, msg_type := 0, msg_size := 0, pkt_num := 0,
    rem_session_num := 0, req_num := 0 }

/-- The Nexus state right after the hook of Rpc ID 5 registers on a freshly
constructed Nexus: the registration window is closed and slot 5 holds the
hook. -/
def nexus_after_hook5 : NexusState :=
  { req_func_arr := fun _ => none
    req_func_registration_allowed := false
    reg_hooks_arr := fun i => if i = 5 then some { rpc_id := 5 } else none }

/-- Rounding up never shrinks: `x ≤ round_up a x` for positive alignment. -/
theorem round_up_ge (a x : Nat) (ha : 0 < a) : x ≤ round_up a x := by
  unfold round_up
  rw [Nat.mul_comm]
  have h1 := Nat.div_add_mod (x + a - 1) a
  have h2 : (x + a - 1) % a < a := Nat.mod_lt _ ha
  omega

/-- With the registration window closed, `register_req_func` returns the
registration-closed error and leaves the state untouched. -/
theorem register_req_func_closed (s : NexusState) (t : Nat) (f : ReqFunc)
    (h : s.req_func_registration_allowed = false) :
    Nexus.register_req_func s t f = (-1, s) := by
  unfold Nexus.register_req_func
  simp [h]

/-- With the window open and slot `t` occupied, `register_req_func` returns
the slot-occupied error and leaves the state untouched. -/
theorem register_req_func_occupied (s : NexusState) (t : Nat) (f g : ReqFunc)
    (h1 : s.req_func_registration_allowed = true)
    (h2 : s.req_func_arr t = some g) :
    Nexus.register_req_func s t f = (-2, s) := by
  unfold Nexus.register_req_func
  simp [h1, h2]

/-- With the window open, slot `t` free and a valid handler,
`register_req_func` succeeds and installs the handler. -/
theorem register_req_func_success (s : NexusState) (t : Nat) (f : ReqFunc)
    (h1 : s.req_func_registration_allowed = true)
    (h2 : s.req_func_arr t = none) (h3 : f.req_func ≠ 0) :
    Nexus.register_req_func s t f =
      (0, { s with req_func_arr := fun u =>
              if u = t then some f else s.req_func_arr u }) := by
  unfold Nexus.register_req_func
  simp [h1, h2, h3]

/-- C1 counterexample: a Buffer at address 1024 with class size 8192
satisfies every constructor precondition for `max_data_size = 4096`,
`max_num_pkts = 3`, yet when the backing memory is zeroed the freshly
constructed MsgBuffer is not valid: the owning constructor performs no store
to the packet-header region, so `get_pkthdr_0()->magic` is 0, not
`kPktHdrMagic`, contradicting the claim that the constructor itself
establishes the magic field. -/
theorem C1_counterexample :
    MsgBuffer.ctor_owned_asserts { buf := 1024, class_size := 8192 } 4096 3 =
      true ∧
    MsgBuffer.is_valid
      (MsgBuffer.ctor_owned { buf := 1024, class_size := 8192 } 4096 3)
      heap_zero = false := by
  exact ⟨by decide, by decide⟩

/-- C1 (amended): the owning constructor does not write the magic field.
Under its preconditions it makes `get_pkthdr_0()` point exactly at the base
of the backing buffer (so `buf` is non-null), and immediately after
construction `is_valid()` returns true precisely when the backing memory
already held `kPktHdrMagic` in that slot. -/
theorem C1_magic_after_ctor_owned (heap : Heap) (buffer : Buffer) (D N : Nat)
    (h1 : buffer.buf ≠ 0) (h2 : 1 ≤ N)
    (h3 : D + N * sizeof_pkthdr ≤ buffer.class_size) :
    (MsgBuffer.ctor_owned buffer D N).get_pkthdr_0 = buffer.buf ∧
    (MsgBuffer.is_valid (MsgBuffer.ctor_owned buffer D N) heap = true ↔
      (heap buffer.buf).magic = kPktHdrMagic) := by
  have hb : (MsgBuffer.ctor_owned buffer D N).get_pkthdr_0 = buffer.buf := by
    unfold MsgBuffer.get_pkthdr_0 MsgBuffer.ctor_owned
    simp
  refine ⟨hb, ?_⟩
  unfold MsgBuffer.is_valid
  rw [hb]
  have hnz : (MsgBuffer.ctor_owned buffer D N).buf ≠ 0 := by
    unfold MsgBuffer.ctor_owned sizeof_pkthdr
    simp
  by_cases hm : (heap buffer.buf).magic = kPktHdrMagic <;> simp [hnz, hm]

/-- C1 witness: the amended theorem applied to the concrete Buffer at 1024
with class size 8192, `max_data_size = 4096`, `max_num_pkts = 3`, over a
heap whose header slots already hold the magic. -/
theorem C1_witness :
    (({ buf := 1024, class_size := 8192 } : Buffer).buf ≠ 0 ∧ 1 ≤ 3 ∧
      4096 + 3 * sizeof_pkthdr ≤
        ({ buf := 1024, class_size := 8192 } : Buffer).class_size) ∧
    ((MsgBuffer.ctor_owned { buf := 1024, class_size := 8192 } 4096
        3).get_pkthdr_0 = ({ buf := 1024, class_size := 8192 } : Buffer).buf ∧
     (MsgBuffer.is_valid
        (MsgBuffer.ctor_owned { buf := 1024, class_size := 8192 } 4096 3)
        heap_magic = true ↔
      (heap_magic ({ buf := 1024, class_size := 8192 } : Buffer).buf).magic =
        kPktHdrMagic)) :=
  ⟨⟨by decide, by decide, by decide⟩,
   C1_magic_after_ctor_owned heap_magic { buf := 1024, class_size := 8192 }
     4096 3 (by decide) (by decide) (by decide)⟩

/-- C2: for a MsgBuffer built by the owning constructor with max data size
`D` and `N` packets, the nth trailing header (1 ≤ n < N) sits at
`buf + round_up_word(D) + (n-1)*sizeof(pkthdr)`, where `buf` is the start of
the MsgBuffer's data region, and it never overlaps the payload region
`[buf, buf + D)`. -/
theorem C2_pkthdr_n_addr (buffer : Buffer) (D N i : Nat)
    (h1 : 1 ≤ i) (h2 : i < N) :
    (MsgBuffer.ctor_owned buffer D N).get_pkthdr_n i =
      (MsgBuffer.ctor_owned buffer D N).buf + round_up sizeof_size_t D +
        (i - 1) * sizeof_pkthdr ∧
    (MsgBuffer.ctor_owned buffer D N).buf + D ≤
      (MsgBuffer.ctor_owned buffer D N).get_pkthdr_n i := by
  constructor
  · rfl
  · have hd := round_up_ge sizeof_size_t D (by decide)
    unfold MsgBuffer.get_pkthdr_n MsgBuffer.ctor_owned
    simp only
    omega

/-- C2 witness: the spec's S3 instance. With `max_data_size = 4096`,
`max_num_pkts = 3` and word size 8, header 1 is at `buf + 4096` and header 2
at `buf + 4096 + sizeof(pkthdr)`. -/
theorem C2_witness :
    ((1 ≤ 1 ∧ 1 < 3) ∧
     ((MsgBuffer.ctor_owned { buf := 1024, class_size := 8192 } 4096
         3).get_pkthdr_n 1 =
       (MsgBuffer.ctor_owned { buf := 1024, class_size := 8192 } 4096 3).buf +
         round_up sizeof_size_t 4096 + (1 - 1) * sizeof_pkthdr ∧
      (MsgBuffer.ctor_owned { buf := 1024, class_size := 8192 } 4096 3).buf +
          4096 ≤
        (MsgBuffer.ctor_owned { buf := 1024, class_size := 8192 } 4096
          3).get_pkthdr_n 1)) ∧
    (MsgBuffer.ctor_owned { buf := 1024, class_size := 8192 } 4096
        3).get_pkthdr_n 1 =
      (MsgBuffer.ctor_owned { buf := 1024, class_size := 8192 } 4096 3).buf +
        4096 ∧
    (MsgBuffer.ctor_owned { buf := 1024, class_size := 8192 } 4096
        3).get_pkthdr_n 2 =
      (MsgBuffer.ctor_owned { buf := 1024, class_size := 8192 } 4096 3).buf +
        4096 + sizeof_pkthdr :=
  ⟨⟨⟨by decide, by decide⟩,
    C2_pkthdr_n_addr { buf := 1024, class_size := 8192 } 4096 3 1 (by decide)
      (by decide)⟩,
   by decide, by decide⟩

/-- C3: `resize(d2, n2)` under its asserts (`d2 ≤ max_data_size`,
`n2 ≤ max_num_pkts`) changes only `data_size` and `num_pkts`: the magic read
through `get_pkthdr_0` is untouched (resize performs no store), every header
pointer value (`get_pkthdr_0` and each `get_pkthdr_n i`, 1 ≤ i <
max_num_pkts) is identical before and after, and `buf`, `buffer`,
`max_data_size`, `max_num_pkts` and the progress counter are unchanged. -/
theorem C3_resize_frame (heap : Heap) (m : MsgBuffer) (d2 n2 i : Nat)
    (h1 : d2 ≤ m.max_data_size) (h2 : n2 ≤ m.max_num_pkts)
    (h3 : 1 ≤ i) (h4 : i < m.max_num_pkts) :
    (m.resize d2 n2).data_size = d2 ∧
    (m.resize d2 n2).num_pkts = n2 ∧
    (heap ((m.resize d2 n2).get_pkthdr_0)).magic =
      (heap m.get_pkthdr_0).magic ∧
    (m.resize d2 n2).get_pkthdr_0 = m.get_pkthdr_0 ∧
    (m.resize d2 n2).get_pkthdr_n i = m.get_pkthdr_n i ∧
    (m.resize d2 n2).buf = m.buf ∧
    (m.resize d2 n2).buffer = m.buffer ∧
    (m.resize d2 n2).max_data_size = m.max_data_size ∧
    (m.resize d2 n2).max_num_pkts = m.max_num_pkts ∧
    (m.resize d2 n2).pkts_queued = m.pkts_queued := by
  unfold MsgBuffer.resize MsgBuffer.get_pkthdr_0 MsgBuffer.get_pkthdr_n
  simp

/-- C3 witness: the frame theorem applied to the concrete MsgBuffer over the
Buffer at 1024 (max data 4096, 3 packets), resized to 100 bytes and one
packet, at trailing header 1. -/
theorem C3_witness :
    ((100 ≤ (MsgBuffer.ctor_owned { buf := 1024, class_size := 8192 } 4096
              3).max_data_size ∧
      1 ≤ (MsgBuffer.ctor_owned { buf := 1024, class_size := 8192 } 4096
              3).max_num_pkts ∧
      1 ≤ 1 ∧
      1 < (MsgBuffer.ctor_owned { buf := 1024, class_size := 8192 } 4096
              3).max_num_pkts)) ∧
    (((MsgBuffer.ctor_owned { buf := 1024, class_size := 8192 } 4096
          3).resize 100 1).data_size = 100 ∧
     ((MsgBuffer.ctor_owned { buf := 1024, class_size := 8192 } 4096
          3).resize 100 1).num_pkts = 1 ∧
     (heap_magic (((MsgBuffer.ctor_owned { buf := 1024, class_size := 8192 }
          4096 3).resize 100 1).get_pkthdr_0)).magic =
       (heap_magic ((MsgBuffer.ctor_owned { buf := 1024, class_size := 8192 }
          4096 3).get_pkthdr_0)).magic ∧
     ((MsgBuffer.ctor_owned { buf := 1024, class_size := 8192 } 4096
          3).resize 100 1).get_pkthdr_0 =
       (MsgBuffer.ctor_owned { buf := 1024, class_size := 8192 } 4096
          3).get_pkthdr_0 ∧
     ((MsgBuffer.ctor_owned { buf := 1024, class_size := 8192 } 4096
          3).resize 100 1).get_pkthdr_n 1 =
       (MsgBuffer.ctor_owned { buf := 1024, class_size := 8192 } 4096
          3).get_pkthdr_n 1 ∧
     ((MsgBuffer.ctor_owned { buf := 1024, class_size := 8192 } 4096
          3).resize 100 1).buf =
       (MsgBuffer.ctor_owned { buf := 1024, class_size := 8192 } 4096 3).buf ∧
     ((MsgBuffer.ctor_owned { buf := 1024, class_size := 8192 } 4096
          3).resize 100 1).buffer =
       (MsgBuffer.ctor_owned { buf := 1024, class_size := 8192 } 4096
          3).buffer ∧
     ((MsgBuffer.ctor_owned { buf := 1024, class_size := 8192 } 4096
          3).resize 100 1).max_data_size =
       (MsgBuffer.ctor_owned { buf := 1024, class_size := 8192 } 4096
          3).max_data_size ∧
     ((MsgBuffer.ctor_owned { buf := 1024, class_size := 8192 } 4096
          3).resize 100 1).max_num_pkts =
       (MsgBuffer.ctor_owned { buf := 1024, class_size := 8192 } 4096
          3).max_num_pkts ∧
     ((MsgBuffer.ctor_owned { buf := 1024, class_size := 8192 } 4096
          3).resize 100 1).pkts_queued =
       (MsgBuffer.ctor_owned { buf := 1024, class_size := 8192 } 4096
          3).pkts_queued) :=
  ⟨⟨by decide, by decide, by decide, by decide⟩,
   C3_resize_frame heap_magic
     (MsgBuffer.ctor_owned { buf := 1024, class_size := 8192 } 4096 3) 100 1 1
     (by decide) (by decide) (by decide) (by decide)⟩

/-- C4: the request-function registration window closes exactly at the
first successful `register_hook`: a successful `register_hook` leaves
`req_func_registration_allowed = false`; once the flag is false, no
operation (another `register_req_func`, `register_hook` or
`unregister_hook`) ever sets it back to true; and while it is false every
`register_req_func` call returns the registration-closed error with the
state — in particular the request-function table — unmodified. -/
theorem C4_registration_window (s s2 s3 : NexusState) (hook : Hook)
    (op : NexusOp) (t : Nat) (f : ReqFunc)
    (hreg : Nexus.register_hook s hook = some s2)
    (hclosed : s3.req_func_registration_allowed = false) :
    s2.req_func_registration_allowed = false ∧
    (Nexus.step s3 op).req_func_registration_allowed = false ∧
    Nexus.register_req_func s3 t f = (-1, s3) := by
  refine ⟨?_, ?_, register_req_func_closed s3 t f hclosed⟩
  · unfold Nexus.register_hook at hreg
    by_cases h : (s.reg_hooks_arr hook.rpc_id).isSome
    · simp [h] at hreg
    · simp [h] at hreg
      rw [← hreg]
  · cases op with
    | reg_req_func t2 f2 =>
      show (Nexus.register_req_func s3 t2 f2).2.req_func_registration_allowed =
        false
      rw [register_req_func_closed s3 t2 f2 hclosed]
      exact hclosed
    | reg_hook h2 =>
      unfold Nexus.step Nexus.register_hook
      by_cases hh : (s3.reg_hooks_arr h2.rpc_id).isSome <;>
        simp [hh, hclosed]
    | unreg_hook h2 =>
      unfold Nexus.step Nexus.unregister_hook
      exact hclosed

/-- C4 witness: on a fresh Nexus, registering the hook of Rpc ID 5 yields
the concrete closed state; in that state a further `register_req_func`
step leaves the flag false and returns the registration-closed error
unchanged. -/
theorem C4_witness :
    (Nexus.register_hook Nexus.init { rpc_id := 5 } =
        some nexus_after_hook5 ∧
     nexus_after_hook5.req_func_registration_allowed = false) ∧
    (nexus_after_hook5.req_func_registration_allowed = false ∧
     (Nexus.step nexus_after_hook5
        (NexusOp.reg_req_func 2
          { req_func := 7 })).req_func_registration_allowed = false ∧
     Nexus.register_req_func nexus_after_hook5 2 { req_func := 7 } =
       (-1, nexus_after_hook5)) :=
  ⟨⟨rfl, rfl⟩,
   C4_registration_window Nexus.init nexus_after_hook5 nexus_after_hook5
     { rpc_id := 5 } (NexusOp.reg_req_func 2 { req_func := 7 }) 2
     { req_func := 7 } rfl rfl⟩

/-- C5: `register_req_func(t, f)` returns 0 exactly when registration is
still allowed, slot `t` is unoccupied and the handler is valid; on success
it installs the handler in slot `t`; in every failure case it returns a
negative errno and leaves the state (hence the request-function table)
unchanged; and after a success, a second call on the same request type
fails with the slot-occupied error without mutating the table. -/
theorem C5_register_req_func_cases (s : NexusState) (t : Nat)
    (f f2 : ReqFunc) :
    ((Nexus.register_req_func s t f).1 = 0 ↔
      (s.req_func_registration_allowed = true ∧ s.req_func_arr t = none ∧
       f.req_func ≠ 0)) ∧
    ((Nexus.register_req_func s t f).1 = 0 →
      (Nexus.register_req_func s t f).2.req_func_arr t = some f) ∧
    ((Nexus.register_req_func s t f).1 ≠ 0 →
      (Nexus.register_req_func s t f).1 < 0 ∧
      (Nexus.register_req_func s t f).2 = s) ∧
    ((Nexus.register_req_func s t f).1 = 0 →
      (Nexus.register_req_func (Nexus.register_req_func s t f).2 t f2).1 =
        -2 ∧
      (Nexus.register_req_func (Nexus.register_req_func s t f).2 t f2).2 =
        (Nexus.register_req_func s t f).2) := by
  by_cases h1 : s.req_func_registration_allowed = false
  · rw [register_req_func_closed s t f h1]
    simp [h1]
  · have h1t : s.req_func_registration_allowed = true :=
      Bool.not_eq_false _ |>.mp h1
    by_cases h2 : (s.req_func_arr t).isSome
    · obtain ⟨g, hg⟩ := Option.isSome_iff_exists.mp h2
      rw [register_req_func_occupied s t f g h1t hg]
      simp [hg]
    · have h2n : s.req_func_arr t = none :=
        Option.not_isSome_iff_eq_none.mp h2
      by_cases h3 : f.req_func = 0
      · have hres : Nexus.register_req_func s t f = (-3, s) := by
          unfold Nexus.register_req_func
          simp [h1t, h2n, h3]
        rw [hres]
        simp [h3]
      · unfold Nexus.register_req_func
        simp [h1t, h2n, h3]

/-- C5 witness: the case theorem applied on a fresh Nexus at request type 3
with the valid handler 7 and second handler 9: the first registration
succeeds and installs, and the follow-up facts hold at that input. -/
theorem C5_witness :
    ((Nexus.register_req_func Nexus.init 3 { req_func := 7 }).1 = 0 ↔
      (Nexus.init.req_func_registration_allowed = true ∧
       Nexus.init.req_func_arr 3 = none ∧
       ({ req_func := 7 } : ReqFunc).req_func ≠ 0)) ∧
    ((Nexus.register_req_func Nexus.init 3 { req_func := 7 }).1 = 0 →
      (Nexus.register_req_func Nexus.init 3
          { req_func := 7 }).2.req_func_arr 3 = some { req_func := 7 }) ∧
    ((Nexus.register_req_func Nexus.init 3 { req_func := 7 }).1 ≠ 0 →
      (Nexus.register_req_func Nexus.init 3 { req_func := 7 }).1 < 0 ∧
      (Nexus.register_req_func Nexus.init 3 { req_func := 7 }).2 =
        Nexus.init) ∧
    ((Nexus.register_req_func Nexus.init 3 { req_func := 7 }).1 = 0 →
      (Nexus.register_req_func
          (Nexus.register_req_func Nexus.init 3 { req_func := 7 }).2 3
          { req_func := 9 }).1 = -2 ∧
      (Nexus.register_req_func
          (Nexus.register_req_func Nexus.init 3 { req_func := 7 }).2 3
          { req_func := 9 }).2 =
        (Nexus.register_req_func Nexus.init 3 { req_func := 7 }).2) :=
  C5_register_req_func_cases Nexus.init 3 { req_func := 7 } { req_func := 9 }

/-- C6: `is_valid()` returns true exactly when `buf` is non-null and the
magic of the packet header immediately before `buf` (read through
`get_pkthdr_0`) equals `kPktHdrMagic`. -/
theorem C6_is_valid_iff (m : MsgBuffer) (heap : Heap) :
    m.is_valid heap = true ↔
      (m.buf ≠ 0 ∧ (heap m.get_pkthdr_0).magic = kPktHdrMagic) := by
  unfold MsgBuffer.is_valid
  by_cases h : m.buf = 0
  · simp [h]
  · by_cases hm : (heap m.get_pkthdr_0).magic = kPktHdrMagic <;> simp [h, hm]

/-- C7: a MsgBuffer built by the RX-borrow constructor from a received
packet at `pkt` has `max_num_pkts = 1`, `num_pkts = 1`, the invalid Buffer
sentinel as its backing buffer, `buf` pointing `sizeof(pkthdr)` bytes past
the packet start, and it is valid exactly when the magic embedded at the
packet start equals `kPktHdrMagic`. -/
theorem C7_ctor_rx (heap : Heap) (pkt D : Nat) :
    (MsgBuffer.ctor_rx pkt D).max_num_pkts = 1 ∧
    (MsgBuffer.ctor_rx pkt D).num_pkts = 1 ∧
    (MsgBuffer.ctor_rx pkt D).buffer = Buffer.get_invalid_buffer ∧
    (MsgBuffer.ctor_rx pkt D).buf = pkt + sizeof_pkthdr ∧
    (MsgBuffer.is_valid (MsgBuffer.ctor_rx pkt D) heap = true ↔
      (heap pkt).magic = kPktHdrMagic) := by
  refine ⟨rfl, rfl, rfl, rfl, ?_⟩
  have hb : (MsgBuffer.ctor_rx pkt D).get_pkthdr_0 = pkt := by
    unfold MsgBuffer.get_pkthdr_0 MsgBuffer.ctor_rx
    simp
  have hnz : (MsgBuffer.ctor_rx pkt D).buf ≠ 0 := by
    unfold MsgBuffer.ctor_rx sizeof_pkthdr
    simp
  unfold MsgBuffer.is_valid
  rw [hb]
  by_cases hm : (heap pkt).magic = kPktHdrMagic <;> simp [hnz, hm]

/-- C8: the owning constructor has no runtime failure path. Under the
preconditions (non-null backing buffer, at least one packet, class size
covering payload plus headers) its three assertions all hold, and
construction unconditionally produces the fully initialized MsgBuffer
record. -/
theorem C8_ctor_owned_total (buffer : Buffer) (D N : Nat)
    (h1 : buffer.buf ≠ 0) (h2 : 1 ≤ N)
    (h3 : D + N * sizeof_pkthdr ≤ buffer.class_size) :
    MsgBuffer.ctor_owned_asserts buffer D N = true ∧
    MsgBuffer.ctor_owned buffer D N =
      { buf := buffer.buf + sizeof_pkthdr, buffer := buffer,
        max_data_size := D, data_size := D, max_num_pkts := N,
        num_pkts := N, pkts_queued := 0 } := by
  constructor
  · unfold MsgBuffer.ctor_owned_asserts
    simp [h1, h2, h3]
  · rfl

/-- C8 witness: the constructor-totality theorem at the Buffer at 1024 with
class size 8192, `max_data_size = 4096`, `max_num_pkts = 3`. -/
theorem C8_witness :
    (({ buf := 1024, class_size := 8192 } : Buffer).buf ≠ 0 ∧ 1 ≤ 3 ∧
      4096 + 3 * sizeof_pkthdr ≤
        ({ buf := 1024, class_size := 8192 } : Buffer).class_size) ∧
    (MsgBuffer.ctor_owned_asserts { buf := 1024, class_size := 8192 } 4096 3 =
        true ∧
     MsgBuffer.ctor_owned { buf := 1024, class_size := 8192 } 4096 3 =
       { buf := ({ buf := 1024, class_size := 8192 } : Buffer).buf +
           sizeof_pkthdr,
         buffer := { buf := 1024, class_size := 8192 },
         max_data_size := 4096, data_size := 4096, max_num_pkts := 3,
         num_pkts := 3, pkts_queued := 0 }) :=
  ⟨⟨by decide, by decide, by decide⟩,
   C8_ctor_owned_total { buf := 1024, class_size := 8192 } 4096 3 (by decide)
     (by decide) (by decide)⟩

/-- C9: `sm_is_peer_mode_server` returns true exactly when the peer's
per-peer opaque data pointer is null, so a null data pointer characterizes a
server-mode peer and a non-null one a client-mode peer. -/
theorem C9_sm_is_peer_mode_server (e : ENetPeer) :
    Nexus.sm_is_peer_mode_server e = true ↔ e.data = 0 := by
  unfold Nexus.sm_is_peer_mode_server
  simp

/-- C10: both constructors start the MsgBuffer at its maximum logical size
with a zeroed progress counter: the owning constructor sets
`data_size = max_data_size = D` and `num_pkts = max_num_pkts = N`, the
RX-borrow constructor sets `data_size = max_data_size = D` and
`num_pkts = 1`, and both set `pkts_queued` to 0. -/
theorem C10_ctor_initial_sizes (buffer : Buffer) (D N pkt : Nat) :
    (MsgBuffer.ctor_owned buffer D N).data_size = D ∧
    (MsgBuffer.ctor_owned buffer D N).data_size =
      (MsgBuffer.ctor_owned buffer D N).max_data_size ∧
    (MsgBuffer.ctor_owned buffer D N).num_pkts = N ∧
    (MsgBuffer.ctor_owned buffer D N).num_pkts =
      (MsgBuffer.ctor_owned buffer D N).max_num_pkts ∧
    (MsgBuffer.ctor_owned buffer D N).pkts_queued = 0 ∧
    (MsgBuffer.ctor_rx pkt D).data_size = D ∧
    (MsgBuffer.ctor_rx pkt D).data_size =
      (MsgBuffer.ctor_rx pkt D).max_data_size ∧
    (MsgBuffer.ctor_rx pkt D).num_pkts = 1 ∧
    (MsgBuffer.ctor_rx pkt D).pkts_queued = 0 :=
  ⟨rfl, rfl, rfl, rfl, rfl, rfl, rfl, rfl, rfl⟩

end ERpc
